import Mathlib

/-!
Shallow embedding of spyder_unittest/widgets/datatree.py, the model class
TestDataModel that stores test results and exposes them through the Qt
abstract item model interface, together with its module-level constants.
Python list indexing (negative indices allowed, IndexError on overflow) is
modelled by pyGet returning an Except value; raising is Except.error.
-/

/-- Test outcome categories, the Category enumeration consumed from the
backend runnerbase module (an external collaborator of this file). -/
inductive Category where
  | ok
  | fail
  | skip
  | pending
deriving DecidableEq

/-- A test result record as consumed by the model, read-only. The time field
is a nullable number of seconds, modelled as an optional rational. -/
structure TestResult where
  category : Category
  status : String
  name : String
  module : String
  message : String
  time : Option Rat
  extra_text : List String
deriving DecidableEq

/-- Values returned by the model query methods: the Python None sentinel,
a string, the default numeric-to-string conversion of a number applied by
the str builtin (numStr), the monospace font, or a colored brush. -/
inductive QVariant where
  | pyNone
  | str (s : String)
  | numStr (q : Rat)
  | font
  | brush (color : String)
deriving DecidableEq

/-- A Qt model index: invalid (used for the root), or row, column and
internal id as produced by createIndex. -/
inductive QModelIndex where
  | invalid
  | mk (row column id : Nat)
deriving DecidableEq

/-- Validity test of an index, as in Qt. -/
def QModelIndex.isValid : QModelIndex → Bool
  | .invalid => false
  | .mk _ _ _ => true

/-- Row of an index; -1 for the invalid index, as in Qt. -/
def QModelIndex.row : QModelIndex → Int
  | .invalid => -1
  | .mk r _ _ => r

/-- Column of an index; -1 for the invalid index, as in Qt. -/
def QModelIndex.column : QModelIndex → Int
  | .invalid => -1
  | .mk _ c _ => c

/-- Internal id of an index; 0 for the invalid index, as in Qt. -/
def QModelIndex.internalId : QModelIndex → Nat
  | .invalid => 0
  | .mk _ _ i => i

/-- Python list subscription xs[i]: negative indices count from the end,
and an index out of range raises (Except.error). -/
def pyGet {α : Type} (xs : List α) (i : Int) : Except Unit α :=
  if 0 ≤ i then
    match xs[i.toNat]? with
    | some x => Except.ok x
    | none => Except.error ()
  else if 0 ≤ i + xs.length then
    match xs[(i + xs.length).toNat]? with
    | some x => Except.ok x
    | none => Except.error ()
  else Except.error ()

/-- Column constant STATUS_COLUMN of datatree.py. -/
def STATUS_COLUMN : Nat := 0

/-- Column constant NAME_COLUMN of datatree.py. -/
def NAME_COLUMN : Nat := 1

/-- Column constant MESSAGE_COLUMN of datatree.py. -/
def MESSAGE_COLUMN : Nat := 2

/-- Column constant TIME_COLUMN of datatree.py. -/
def TIME_COLUMN : Nat := 3

/-- Header titles; the translation function falls back to the identity. -/
def HEADERS : List String := ["Status", "Name", "Message", "Time (ms)"]

/-- Sentinel internal id marking top-level indices. -/
def TOPLEVEL_ID : Nat := 2 ^ 32 - 1

/-- Background brushes keyed by category, the COLORS dictionary. -/
def COLORS : Category → QVariant
  | .ok => .brush "#C1FFBA"
  | .fail => .brush "#FF0000"
  | .skip => .brush "#C5C5C5"
  | .pending => .brush "#C5C5C5"

/-- Qt.DisplayRole. -/
def DisplayRole : Nat := 0

/-- Qt.ToolTipRole. -/
def ToolTipRole : Nat := 3

/-- Qt.FontRole. -/
def FontRole : Nat := 6

/-- Qt.BackgroundRole. -/
def BackgroundRole : Nat := 8

/-- Header orientations Qt.Horizontal and Qt.Vertical. -/
inductive QtOrientation where
  | horizontal
  | vertical
deriving DecidableEq

/-- Structural-change notifications a Qt model emits to attached views. -/
inductive ModelEvent where
  | beginResetModel
  | endResetModel
  | beginInsertRows (parent : QModelIndex) (first last : Int)
  | endInsertRows
deriving DecidableEq

/-- The model state: the stored list of test results. -/
structure TestDataModel where
  testresults : List TestResult
deriving DecidableEq

namespace TestDataModel

/-- Setter of the testresults property: brackets the assignment with
beginResetModel and endResetModel notifications. Returns the new state
and the list of emitted notifications. -/
def set_testresults (m : TestDataModel) (new_value : List TestResult) :
    TestDataModel × List ModelEvent :=
  ({ m with testresults := new_value },
   [ModelEvent.beginResetModel, ModelEvent.endResetModel])

/-- add_testresults: appends via the testresults property setter
(self.testresults += new_tests). -/
def add_testresults (m : TestDataModel) (new_tests : List TestResult) :
    TestDataModel × List ModelEvent :=
  m.set_testresults (m.testresults ++ new_tests)

/-- rowCount: number of results for the root; length of extra_text for a
top-level index in column 0; 0 otherwise. The list access raises for a
top-level index whose row is out of range. -/
def rowCount (m : TestDataModel) (parent : QModelIndex) : Except Unit Nat :=
  match parent with
  | .invalid => Except.ok m.testresults.length
  | .mk prow pcol pid =>
      if pid = TOPLEVEL_ID ∧ pcol = 0 then do
        let res ← pyGet m.testresults (prow : Int)
        Except.ok res.extra_text.length
      else Except.ok 0

/-- columnCount: number of headers for the root, 1 otherwise. -/
def columnCount (_m : TestDataModel) (parent : QModelIndex) : Nat :=
  match parent with
  | .invalid => HEADERS.length
  | .mk _ _ _ => 1

/-- hasIndex from QAbstractItemModel: row and column are nonnegative and
within rowCount and columnCount of the parent. -/
def hasIndex (m : TestDataModel) (row column : Int) (parent : QModelIndex) :
    Except Unit Bool :=
  if row < 0 ∨ column < 0 then Except.ok false
  else do
    let rc ← m.rowCount parent
    Except.ok (decide (row < (rc : Int)) &&
               decide (column < (m.columnCount parent : Int)))

/-- index: bounds-checked construction of an index; parentTag is
TOPLEVEL_ID under the root, else the parent row. -/
def index (m : TestDataModel) (row column : Int) (parent : QModelIndex) :
    Except Unit QModelIndex := do
  let h ← m.hasIndex row column parent
  if h then
    match parent with
    | .invalid => Except.ok (QModelIndex.mk row.toNat column.toNat TOPLEVEL_ID)
    | .mk prow _ _ => Except.ok (QModelIndex.mk row.toNat column.toNat prow)
  else Except.ok QModelIndex.invalid

/-- parent: invalid for the root and for top-level indices; otherwise the
top-level index at row equal to the internal id, column 0. -/
def parent (m : TestDataModel) (index : QModelIndex) : Except Unit QModelIndex :=
  match index with
  | .invalid => Except.ok QModelIndex.invalid
  | .mk _ _ id =>
      if id = TOPLEVEL_ID then Except.ok QModelIndex.invalid
      else m.index (id : Int) 0 QModelIndex.invalid

/-- data: role-dispatched read accessor, following the Python method
branch for branch; falling off the end of a branch returns None. -/
def data (m : TestDataModel) (index : QModelIndex) (role : Nat) :
    Except Unit QVariant :=
  match index with
  | .invalid => Except.ok QVariant.pyNone
  | .mk row column id =>
    if role = DisplayRole then
      if id ≠ TOPLEVEL_ID then do
        let res ← pyGet m.testresults (id : Int)
        let line ← pyGet res.extra_text (row : Int)
        Except.ok (QVariant.str line)
      else if column = STATUS_COLUMN then do
        let res ← pyGet m.testresults (row : Int)
        Except.ok (QVariant.str res.status)
      else if column = NAME_COLUMN then do
        let res ← pyGet m.testresults (row : Int)
        Except.ok (QVariant.str res.name)
      else if column = MESSAGE_COLUMN then do
        let res ← pyGet m.testresults (row : Int)
        Except.ok (QVariant.str res.message)
      else if column = TIME_COLUMN then do
        let res ← pyGet m.testresults (row : Int)
        match res.time with
        | some t =>
            Except.ok (if t ≠ 0 then QVariant.numStr (t * 1000)
                       else QVariant.str "")
        | none => Except.ok (QVariant.str "")
      else Except.ok QVariant.pyNone
    else if role = ToolTipRole then
      if id = TOPLEVEL_ID ∧ column = NAME_COLUMN then do
        let res ← pyGet m.testresults (row : Int)
        Except.ok (QVariant.str (res.module ++ "." ++ res.name))
      else Except.ok QVariant.pyNone
    else if role = FontRole then
      if id ≠ TOPLEVEL_ID then Except.ok QVariant.font
      else Except.ok QVariant.pyNone
    else if role = BackgroundRole then
      if id = TOPLEVEL_ID then do
        let res ← pyGet m.testresults (row : Int)
        Except.ok (COLORS res.category)
      else Except.ok QVariant.pyNone
    else Except.ok QVariant.pyNone

/-- headerData: for horizontal orientation and display role, the header
title at the given section (Python list subscription, which raises when
out of range); otherwise None. -/
def headerData (_m : TestDataModel) (sect : Int)
    (orientation : QtOrientation) (role : Nat) : Except Unit QVariant :=
  if orientation = QtOrientation.horizontal ∧ role = DisplayRole then do
    let h ← pyGet HEADERS sect
    Except.ok (QVariant.str h)
  else Except.ok QVariant.pyNone

/-- summary: localized message for the empty list, otherwise the
HTML-emphasized counts of failed, passed and other tests, counting
categories with a Counter. -/
def summary (m : TestDataModel) : String :=
  if m.testresults.length = 0 then "No results to show."
  else
    let counts := fun c => (m.testresults.map TestResult.category).count c
    let test_or_tests := if counts Category.fail = 1 then "test" else "tests"
    let failed_txt :=
      toString (counts Category.fail) ++ " " ++ test_or_tests ++ " failed"
    let passed_txt := toString (counts Category.ok) ++ " passed"
    let other_txt := toString (counts Category.skip) ++ " other"
    "<b>" ++ failed_txt ++ ", " ++ passed_txt ++ ", " ++ other_txt ++ "</b>"

end TestDataModel

/-- Concrete passing result used by the witnesses. -/
def resultOkA : TestResult :=
  ⟨Category.ok, "ok", "test_alpha", "mymodule", "", some 0, ["out a"]⟩

/-- Second concrete passing result used by the witnesses. -/
def resultOkB : TestResult :=
  ⟨Category.ok, "ok", "test_beta", "mymodule", "", none, []⟩

/-- Concrete failing result with time 0.1234 seconds and two detail lines. -/
def resultFail : TestResult :=
  ⟨Category.fail, "failure", "test_gamma", "mymodule", "boom",
   some (1234 / 10000), ["Traceback", "AssertionError"]⟩

/-- Concrete skipped result used by the witnesses. -/
def resultSkip : TestResult :=
  ⟨Category.skip, "skipped", "test_delta", "mymodule", "", some (1 / 2), []⟩

/-- A model holding no results. -/
def mEmpty : TestDataModel := ⟨[]⟩

/-- A model holding the four sample results: OK, OK, FAIL, SKIP. -/
def mSample : TestDataModel := ⟨[resultOkA, resultOkB, resultFail, resultSkip]⟩

/-- Evaluating pyGet at a nonnegative in-range position. -/
theorem pyGet_nat_lt {α : Type} (xs : List α) (r : Nat) (h : r < xs.length) :
    pyGet xs (r : Int) = Except.ok xs[r] := by
  unfold pyGet
  rw [if_pos (Int.natCast_nonneg r)]
  simp [List.getElem?_eq_getElem, h]

/-- Bind on a successful Except value reduces to the continuation. -/
theorem ok_bind {α β : Type} (a : α) (f : α → Except Unit β) :
    (Except.ok a >>= f : Except Unit β) = f a := rfl

/-- Bind on a raised Except value propagates the raise. -/
theorem error_bind {α β : Type} (f : α → Except Unit β) :
    (Except.error () >>= f : Except Unit β) = Except.error () := rfl

/-- C1 counterexample: calling add_testresults on the empty model with one
new result emits the model-reset notification pair, which is not the
insert-begin/insert-end pair for rows 0..0 that the claim requires. -/
theorem C1_counterexample :
    (mEmpty.add_testresults [resultOkA]).2 =
        [ModelEvent.beginResetModel, ModelEvent.endResetModel] ∧
    (mEmpty.add_testresults [resultOkA]).2 ≠
        [ModelEvent.beginInsertRows QModelIndex.invalid 0 0,
         ModelEvent.endInsertRows] :=
  ⟨rfl, by decide⟩

/-- C1 (amended): every call to add_testresults appends the supplied list
and is bracketed by a full model-reset notification pair, emitted by the
testresults property setter; no insert-range notifications are emitted. -/
theorem C1_add_testresults_reset_events (m : TestDataModel)
    (new_tests : List TestResult) :
    (m.add_testresults new_tests).2 =
        [ModelEvent.beginResetModel, ModelEvent.endResetModel] ∧
    (m.add_testresults new_tests).1.testresults =
        m.testresults ++ new_tests :=
  ⟨rfl, rfl⟩

/-- C2 counterexample: headerData raises (an IndexError from the header
list subscription) at section 4 with horizontal orientation and display
role, so it is not the case that it never raises out of range. -/
theorem C2_counterexample :
    mEmpty.headerData 4 QtOrientation.horizontal DisplayRole =
      Except.error () := rfl

/-- C2 (amended): headerData returns the column title at position sect for
horizontal orientation and display role when 0 ≤ sect < 4, returns the
no-data sentinel whenever the orientation is not horizontal or the role is
not the display role, and raises when orientation is horizontal, the role
is the display role and sect is at least 4. -/
theorem C2_headerData_amended (m : TestDataModel) (sect : Int)
    (orientation : QtOrientation) (role : Nat) :
    (orientation = QtOrientation.horizontal → role = DisplayRole →
      0 ≤ sect → sect < 4 →
      m.headerData sect orientation role =
        Except.ok (QVariant.str (HEADERS.getD sect.toNat ""))) ∧
    (orientation ≠ QtOrientation.horizontal ∨ role ≠ DisplayRole →
      m.headerData sect orientation role = Except.ok QVariant.pyNone) ∧
    (orientation = QtOrientation.horizontal → role = DisplayRole →
      4 ≤ sect →
      m.headerData sect orientation role = Except.error ()) := by
  refine ⟨?_, ?_, ?_⟩ -- three parts
  · intro ho hr h0 h4
    subst ho; subst hr
    interval_cases sect <;> rfl
  · intro hne
    unfold TestDataModel.headerData
    rw [if_neg]
    tauto
  · intro ho hr h4
    subst ho; subst hr
    have h0 : (0 : Int) ≤ sect := by omega
    have hlen : HEADERS.length ≤ sect.toNat := by
      simp only [HEADERS, List.length_cons, List.length_nil]
      omega
    simp [TestDataModel.headerData, pyGet, h0, List.getElem?_eq_none hlen,
      error_bind]

/-- C2 witness: the amended theorem applied at section 1, horizontal,
display role on the empty model yields the Name column title. -/
theorem C2_headerData_amended_witness :
    mEmpty.headerData 1 QtOrientation.horizontal DisplayRole =
      Except.ok (QVariant.str "Name") := by
  have hc := (C2_headerData_amended mEmpty 1 QtOrientation.horizontal
    DisplayRole).1 rfl rfl (by decide) (by decide)
  exact hc.trans rfl

/-- C3: for a top-level row, the Time column display value is the default
string conversion of the stored time multiplied by 1000 when the time is
present and nonzero, and the empty string when the time is None or 0. -/
theorem C3_time_display (m : TestDataModel) (row : Nat)
    (h : row < m.testresults.length) :
    (m.testresults[row].time = none ∨ m.testresults[row].time = some 0 →
      m.data (QModelIndex.mk row TIME_COLUMN TOPLEVEL_ID) DisplayRole =
        Except.ok (QVariant.str "")) ∧
    (∀ t : Rat, m.testresults[row].time = some t → t ≠ 0 →
      m.data (QModelIndex.mk row TIME_COLUMN TOPLEVEL_ID) DisplayRole =
        Except.ok (QVariant.numStr (t * 1000))) := by
  have hg := pyGet_nat_lt m.testresults row h
  constructor
  · intro hcase
    rcases hcase with hnone | hzero
    · simp [TestDataModel.data, DisplayRole, TOPLEVEL_ID, TIME_COLUMN,
        STATUS_COLUMN, NAME_COLUMN, MESSAGE_COLUMN, ToolTipRole,
        hg, ok_bind, hnone]
    · simp [TestDataModel.data, DisplayRole, TOPLEVEL_ID, TIME_COLUMN,
        STATUS_COLUMN, NAME_COLUMN, MESSAGE_COLUMN, ToolTipRole,
        hg, ok_bind, hzero]
  · intro t ht htnz
    simp [TestDataModel.data, DisplayRole, TOPLEVEL_ID, TIME_COLUMN,
      STATUS_COLUMN, NAME_COLUMN, MESSAGE_COLUMN, ToolTipRole,
      hg, ok_bind, ht, htnz]

/-- C3 witness: the sample failing result stores time 0.1234 seconds and
its Time column displays the string form of 123.4. -/
theorem C3_time_display_witness :
    mSample.data (QModelIndex.mk 2 TIME_COLUMN TOPLEVEL_ID) DisplayRole =
      Except.ok (QVariant.numStr ((1234 : Rat) / 10)) := by
  have hc := (C3_time_display mSample 2 (by decide)).2 ((1234 : Rat) / 10000)
    rfl (by norm_num)
  have harith : ((1234 : Rat) / 10000) * 1000 = (1234 : Rat) / 10 := by
    norm_num
  rw [hc, harith]

/-- C9: add_testresults concatenates the new list after the existing
sequence in order; the prefix of the new sequence is the old sequence
unchanged and the suffix is exactly the appended list. -/
theorem C9_add_testresults_append (m : TestDataModel)
    (new_tests : List TestResult) :
    (m.add_testresults new_tests).1.testresults =
        m.testresults ++ new_tests ∧
    ((m.add_testresults new_tests).1.testresults).take
        m.testresults.length = m.testresults ∧
    ((m.add_testresults new_tests).1.testresults).drop
        m.testresults.length = new_tests := by
  refine ⟨rfl, ?_, ?_⟩ <;>
    simp [TestDataModel.add_testresults, TestDataModel.set_testresults]

/-- C10: parent applied to the invalid index returns the invalid root
index rather than raising. -/
theorem C10_parent_of_invalid (m : TestDataModel) :
    m.parent QModelIndex.invalid = Except.ok QModelIndex.invalid := rfl

/-- Counting a category among the mapped categories (the Counter of the
source) equals the length of the sublist of results of that category. -/
theorem count_map_category (xs : List TestResult) (c : Category) :
    (xs.map TestResult.category).count c =
      (xs.filter (fun r => r.category == c)).length := by
  induction xs with
  | nil => rfl
  | cons a xs ih =>
      by_cases hc : a.category = c <;>
        simp [List.count_cons, List.filter_cons, hc, ih]

/-- C4: summary yields the HTML string with the counts of FAIL, OK and
SKIP results (PENDING counted in none of the three), with singular test
exactly when the FAIL count is 1, and the no-results message for the
empty sequence. -/
theorem C4_summary (m : TestDataModel) :
    (m.testresults = [] → m.summary = "No results to show.") ∧
    (m.testresults ≠ [] →
      m.summary =
        "<b>" ++
          (toString (m.testresults.filter
              (fun r => r.category == Category.fail)).length ++ " " ++
            (if (m.testresults.filter
                  (fun r => r.category == Category.fail)).length = 1
              then "test" else "tests") ++ " failed") ++ ", " ++
          (toString (m.testresults.filter
              (fun r => r.category == Category.ok)).length ++ " passed") ++
          ", " ++
          (toString (m.testresults.filter
              (fun r => r.category == Category.skip)).length ++ " other") ++
          "</b>") := by
  constructor
  · intro he
    simp [TestDataModel.summary, he]
  · intro hne
    have hlen : ¬(m.testresults.length = 0) := by
      simpa [List.length_eq_zero] using hne
    rw [TestDataModel.summary, if_neg hlen]
    simp only [count_map_category]

/-- C4 witness: on the sample results OK, OK, FAIL, SKIP the summary is
the singular-form string with counts 1, 2, 1. -/
theorem C4_summary_witness :
    mSample.summary = "<b>1 test failed, 2 passed, 1 other</b>" := by
  have hc := (C4_summary mSample).2 (by decide)
  exact hc.trans rfl

/-- Evaluating index under the root at an in-bounds position. -/
theorem index_root_ok (m : TestDataModel) (row col : Nat)
    (hrow : row < m.testresults.length) (hcol : col < HEADERS.length) :
    m.index (row : Int) (col : Int) QModelIndex.invalid =
      Except.ok (QModelIndex.mk row col TOPLEVEL_ID) := by
  have h1 : ¬((row : Int) < 0 ∨ (col : Int) < 0) := by omega
  unfold TestDataModel.index TestDataModel.hasIndex TestDataModel.rowCount
    TestDataModel.columnCount
  rw [if_neg h1]
  simp [ok_bind, Nat.cast_lt, hrow, hcol]

/-- Evaluating index under a top-level parent at an in-bounds position. -/
theorem index_child_ok (m : TestDataModel) (R C : Nat)
    (hR : R < m.testresults.length)
    (hC : C < m.testresults[R].extra_text.length) :
    m.index (C : Int) 0 (QModelIndex.mk R 0 TOPLEVEL_ID) =
      Except.ok (QModelIndex.mk C 0 R) := by
  have h1 : ¬((C : Int) < 0 ∨ (0 : Int) < 0) := by omega
  have hg := pyGet_nat_lt m.testresults R hR
  unfold TestDataModel.index TestDataModel.hasIndex TestDataModel.rowCount
    TestDataModel.columnCount
  rw [if_neg h1]
  simp [ok_bind, hg, Nat.cast_lt, hC]

/-- C5: index construction round-trips with parent: under the root, the
constructed index keeps its row and column and its parent is the root;
and the parent of a child index of top-level row R is the top-level index
of row R. -/
theorem C5_index_parent_roundtrip (m : TestDataModel)
    (hsize : m.testresults.length ≤ TOPLEVEL_ID) :
    (∀ row col : Nat, row < m.testresults.length → col < 4 →
      ∃ idx, m.index (row : Int) (col : Int) QModelIndex.invalid =
          Except.ok idx ∧
        m.parent idx = Except.ok QModelIndex.invalid ∧
        idx.row = (row : Int) ∧ idx.column = (col : Int)) ∧
    (∀ R C : Nat, (hR : R < m.testresults.length) →
      C < m.testresults[R].extra_text.length →
      ∃ tidx cidx,
        m.index (R : Int) 0 QModelIndex.invalid = Except.ok tidx ∧
        m.index (C : Int) 0 tidx = Except.ok cidx ∧
        m.parent cidx = m.index (R : Int) 0 QModelIndex.invalid) := by
  constructor
  · intro row col hrow hcol
    refine ⟨QModelIndex.mk row col TOPLEVEL_ID,
      index_root_ok m row col hrow (by simpa [HEADERS] using hcol), ?_, rfl, rfl⟩
    simp [TestDataModel.parent]
  · intro R C hR hC
    have hRtop : R ≠ TOPLEVEL_ID := by omega
    refine ⟨QModelIndex.mk R 0 TOPLEVEL_ID, QModelIndex.mk C 0 R,
      index_root_ok m R 0 hR (by simp [HEADERS]),
      index_child_ok m R C hR hC, ?_⟩
    simp [TestDataModel.parent, hRtop]

/-- C5 witness: in the sample model, index (1, 2) under the root keeps
row 1 and column 2 and its parent is the root. -/
theorem C5_index_parent_roundtrip_witness :
    mSample.index (1 : Int) (2 : Int) QModelIndex.invalid =
        Except.ok (QModelIndex.mk 1 2 TOPLEVEL_ID) ∧
    mSample.parent (QModelIndex.mk 1 2 TOPLEVEL_ID) =
        Except.ok QModelIndex.invalid := by
  obtain ⟨idx, h1, h2, _h3, _h4⟩ :=
    (C5_index_parent_roundtrip mSample (by decide)).1 1 2 (by decide) (by decide)
  have he : Except.ok idx =
      Except.ok (QModelIndex.mk 1 2 TOPLEVEL_ID) := h1.symm.trans rfl
  injection he with he
  rw [he] at h1 h2
  exact ⟨h1, h2⟩

/-- C6: rowCount is the number of results at the root, the length of
extra_text for a top-level index in column 0, and 0 for any second-level
index or any top-level index in a nonzero column. -/
theorem C6_rowCount (m : TestDataModel) :
    m.rowCount QModelIndex.invalid = Except.ok m.testresults.length ∧
    (∀ R : Nat, (hR : R < m.testresults.length) →
      m.rowCount (QModelIndex.mk R 0 TOPLEVEL_ID) =
        Except.ok m.testresults[R].extra_text.length) ∧
    (∀ r c id : Nat, id ≠ TOPLEVEL_ID →
      m.rowCount (QModelIndex.mk r c id) = Except.ok 0) ∧
    (∀ r c : Nat, c ≠ 0 →
      m.rowCount (QModelIndex.mk r c TOPLEVEL_ID) = Except.ok 0) := by
  refine ⟨rfl, ?_, ?_, ?_⟩
  · intro R hR
    have hg := pyGet_nat_lt m.testresults R hR
    simp [TestDataModel.rowCount, hg, ok_bind]
  · intro r c id hid
    simp [TestDataModel.rowCount, hid]
  · intro r c hc
    simp [TestDataModel.rowCount, hc]

/-- C6 witness: in the sample model, the root has 4 rows, the top-level
row 2 has 2 detail rows, a second-level index has 0 rows, and a top-level
index in column 1 has 0 rows. -/
theorem C6_rowCount_witness :
    mSample.rowCount QModelIndex.invalid = Except.ok 4 ∧
    mSample.rowCount (QModelIndex.mk 2 0 TOPLEVEL_ID) = Except.ok 2 ∧
    mSample.rowCount (QModelIndex.mk 0 0 2) = Except.ok 0 ∧
    mSample.rowCount (QModelIndex.mk 2 1 TOPLEVEL_ID) = Except.ok 0 := by
  obtain ⟨h1, h2, h3, h4⟩ := C6_rowCount mSample
  exact ⟨h1.trans rfl, (h2 2 (by decide)).trans rfl,
    h3 0 0 2 (by decide), h4 2 1 (by decide)⟩

/-- C7: for a parent on which rowCount succeeds, index returns the invalid
index whenever row or column is out of bounds, and otherwise a valid index
whose parentTag is TOPLEVEL_ID under the root and the parent row under a
top-level parent; in neither case does it raise. -/
theorem C7_index_bounds (m : TestDataModel) (row column : Int)
    (parent : QModelIndex) (rc : Nat)
    (hrc : m.rowCount parent = Except.ok rc) :
    (¬(0 ≤ row ∧ 0 ≤ column ∧ row < (rc : Int) ∧
        column < (m.columnCount parent : Int)) →
      m.index row column parent = Except.ok QModelIndex.invalid) ∧
    (0 ≤ row → 0 ≤ column → row < (rc : Int) →
      column < (m.columnCount parent : Int) →
      (parent = QModelIndex.invalid →
        m.index row column parent =
          Except.ok (QModelIndex.mk row.toNat column.toNat TOPLEVEL_ID)) ∧
      ∀ pr pc pid : Nat, parent = QModelIndex.mk pr pc pid →
        m.index row column parent =
          Except.ok (QModelIndex.mk row.toNat column.toNat pr)) := by
  constructor
  · intro hout
    by_cases hneg : row < 0 ∨ column < 0
    · simp [TestDataModel.index, TestDataModel.hasIndex, hneg, hrc, ok_bind]
    · have hfail : ¬(row < (rc : Int)) ∨
          ¬(column < (m.columnCount parent : Int)) := by
        push_neg at hneg
        tauto
      unfold TestDataModel.index TestDataModel.hasIndex
      rw [if_neg hneg, hrc, ok_bind]
      rcases hfail with hf | hf <;> simp [hf, ok_bind]
  · intro h0r h0c hrow hcol
    have hneg : ¬(row < 0 ∨ column < 0) := by omega
    constructor
    · intro hp
      subst hp
      unfold TestDataModel.index TestDataModel.hasIndex
      rw [if_neg hneg, hrc, ok_bind]
      simp [hrow, hcol, ok_bind]
    · intro pr pc pid hp
      subst hp
      unfold TestDataModel.index TestDataModel.hasIndex
      rw [if_neg hneg, hrc, ok_bind]
      simp [hrow, hcol, ok_bind]

/-- C7 witness: in the sample model with root parent (rowCount 4), row 7
is out of bounds and yields the invalid index, while (1, 3) is in bounds
and yields the top-level index with parentTag TOPLEVEL_ID. -/
theorem C7_index_bounds_witness :
    mSample.index 7 0 QModelIndex.invalid = Except.ok QModelIndex.invalid ∧
    mSample.index 1 3 QModelIndex.invalid =
      Except.ok (QModelIndex.mk 1 3 TOPLEVEL_ID) := by
  constructor
  · exact (C7_index_bounds mSample 7 0 QModelIndex.invalid 4 rfl).1 (by decide)
  · exact ((C7_index_bounds mSample 1 3 QModelIndex.invalid 4 rfl).2
      (by decide) (by decide) (by decide) (by decide)).1 rfl

/-- C8: data returns the no-data sentinel, without raising, for the
invalid index with any role, and for any valid index whose shape does not
match the queried role: display on a top-level index past the Time column,
tooltip anywhere but the Name column of a top-level index, font on a
top-level index, background on a second-level index, and any role other
than display, tooltip, font and background. -/
theorem C8_data_nodata (m : TestDataModel) (idx : QModelIndex) (role : Nat) :
    (idx = QModelIndex.invalid →
      m.data idx role = Except.ok QVariant.pyNone) ∧
    (∀ r c id : Nat, idx = QModelIndex.mk r c id →
      ¬(role = DisplayRole ∧ (id ≠ TOPLEVEL_ID ∨ c ≤ TIME_COLUMN)) →
      ¬(role = ToolTipRole ∧ id = TOPLEVEL_ID ∧ c = NAME_COLUMN) →
      ¬(role = FontRole ∧ id ≠ TOPLEVEL_ID) →
      ¬(role = BackgroundRole ∧ id = TOPLEVEL_ID) →
      m.data idx role = Except.ok QVariant.pyNone) := by
  constructor
  · intro hinv
    subst hinv
    rfl
  · intro r c id hidx h1 h2 h3 h4
    subst hidx
    simp only [DisplayRole, ToolTipRole, FontRole, BackgroundRole,
      STATUS_COLUMN, NAME_COLUMN, MESSAGE_COLUMN, TIME_COLUMN,
      TOPLEVEL_ID] at h1 h2 h3 h4 ⊢
    unfold TestDataModel.data
    simp only [DisplayRole, ToolTipRole, FontRole, BackgroundRole,
      STATUS_COLUMN, NAME_COLUMN, MESSAGE_COLUMN, TIME_COLUMN, TOPLEVEL_ID]
    split_ifs <;> first | rfl | omega

/-- C8 witness: on the sample model, data yields the no-data sentinel for
the invalid index with the display role and for a top-level index queried
with the font role. -/
theorem C8_data_nodata_witness :
    mSample.data QModelIndex.invalid DisplayRole =
        Except.ok QVariant.pyNone ∧
    mSample.data (QModelIndex.mk 0 1 TOPLEVEL_ID) FontRole =
        Except.ok QVariant.pyNone := by
  refine ⟨(C8_data_nodata mSample QModelIndex.invalid DisplayRole).1 rfl, ?_⟩
  exact (C8_data_nodata mSample (QModelIndex.mk 0 1 TOPLEVEL_ID) FontRole).2
    0 1 TOPLEVEL_ID rfl (by decide) (by decide) (by decide) (by decide)
